import Mathlib

/-!
Shallow embedding of the ots-arcgis-feed feed synchronization engine.

Source files embedded:
- src/ots_arcgis_feed/arcgis_client.py  (feature parsing)
- src/ots_arcgis_feed/cot_generator.py  (CoT event construction)
- src/ots_arcgis_feed/feed_manager.py   (fetch, diff, publish, state commit)

Modelling conventions:
- Scalar attribute values (the JSON payload) are `AVal`: null, integer or
  string.  Python truthiness and `str()` are embedded explicitly.
- Python dicts appear as association lists; `aget` models `dict.get(k)`
  returning null for an absent key (JSON null and absent key are both
  `None` to the Python code, hence both `AVal.vNull` here).
- XML element trees (`xml.etree.ElementTree.Element`) are the inductive
  `Elem`; element truthiness in Python is `children is non-empty`, embedded
  as `pyTruthyElem`.
- Instants are abstract minute counts (`Nat`); the serializer
  `iso8601_string_from_datetime` lives in the external `opentakserver`
  package, outside this repository, and is abstracted as the injective
  decimal rendering `iso8601String`.
- I/O boundaries (HTTP fetch, RabbitMQ connect/publish/close) are
  represented by passing the fetch result in as data and by a `FailAt`
  oracle naming the first operation of the run that raises, mirroring the
  single `except BaseException` handler of `fetch_and_publish_feed`.
-/

/-- A scalar attribute value from the upstream JSON payload: null, an
integer, or a string.  Python sees JSON null and a missing key both as
`None`; both are `vNull` through `aget`. -/
inductive AVal where
  | vNull
  | vInt (n : Int)
  | vStr (s : String)
deriving DecidableEq, Repr

/-- Python truthiness of a scalar: `None`, `0` and the empty string are
falsy. -/
def truthyA : AVal → Bool
  | .vNull => false
  | .vInt n => n != 0
  | .vStr s => s != ""

/-- Python `str()` of a scalar: `str(None) = "None"`, integers render in
decimal, strings are themselves. -/
def strOfA : AVal → String
  | .vNull => "None"
  | .vInt n => toString n
  | .vStr s => s

/-- `d.get(k)` on a Python dict of scalars: null when the key is absent
(or bound to JSON null, which the payload stores as `vNull` directly). -/
def aget (m : List (String × AVal)) (k : String) : AVal :=
  match m.lookup k with
  | some v => v
  | none => .vNull

/-- Python `a or b`: the left operand when truthy, otherwise the right. -/
def pyOr (a b : AVal) : AVal :=
  if truthyA a then a else b

/-- One upstream record: `feature.get("attributes", {})` and
`feature.get("geometry", {})`, each an ordered attribute map (an absent
dict behaves as the empty map, matching the `.get(..., {})` defaults). -/
structure RawFeature where
  attributes : List (String × AVal)
  geometry : List (String × AVal)
deriving DecidableEq, Repr

/-- The normalized record returned by `parse_feature`. -/
structure ParsedFeature where
  lat : AVal
  lon : AVal
  object_id : AVal
  callsign : String
  remarks : String
deriving DecidableEq, Repr

/-- `SKIP_FIELDS` from arcgis_client.py: internal or computed fields
excluded from remarks. -/
def SKIP_FIELDS : List String :=
  ["FID", "OBJECTID", "OBJECTID_1", "ObjectId", "SourceOID",
   "Shape__Length", "Shape__Len", "Shape__Area",
   "GlobalID", "SourceGlobalID", "IrwinID",
   "CreatedOnDateTime_dt", "ModifiedOnDateTime_dt"]

/-- The ordered fallback list of common name-bearing attributes probed for
a callsign (arcgis_client.py, lines 62-63). -/
def callsignFallbackFields : List String :=
  ["IncidentName", "InstallationName", "Plant_Name",
   "Name", "NAME", "Affiliation", "OWNER"]

/-- Python `str.strip()`: drop leading and trailing whitespace
(implemented structurally over the character list so that it evaluates
inside the kernel). -/
def pyStrip (s : String) : String :=
  String.mk (((s.toList.dropWhile Char.isWhitespace).reverse.dropWhile
    Char.isWhitespace).reverse)

/-- Callsign resolution of `parse_feature` (arcgis_client.py, lines
60-69, 85): the configured field when truthy and non-blank, else the first
truthy non-blank fallback field, else the literal Unknown; the final value
is `str(callsign).strip()`. -/
def resolveCallsign (attr : List (String × AVal)) (callsignField : String) : String :=
  let c0 := aget attr callsignField
  let c1 :=
    if !truthyA c0 || pyStrip (strOfA c0) == "" then
      match callsignFallbackFields.find?
          (fun f => truthyA (aget attr f) && pyStrip (strOfA (aget attr f)) != "") with
      | some f => aget attr f
      | none => c0
    else c0
  let c2 := if !truthyA c1 || pyStrip (strOfA c1) == "" then AVal.vStr "Unknown" else c1
  pyStrip (strOfA c2)

/-- Remarks construction of `parse_feature` (arcgis_client.py, lines
72-79): one `key: value` line per attribute not in `SKIP_FIELDS` whose
value is non-null, non-blank and not the sentinel string -999999, in the
native order of the attribute map, joined with newlines. -/
def buildRemarks (attr : List (String × AVal)) : String :=
  let parts := attr.filterMap fun kv =>
    if SKIP_FIELDS.contains kv.1 then none
    else if kv.2 != AVal.vNull && pyStrip (strOfA kv.2) != "" && strOfA kv.2 != "-999999" then
      some (kv.1 ++ ": " ++ strOfA kv.2)
    else none
  if parts.isEmpty then "" else String.intercalate "\n" parts

/-- `parse_feature` (arcgis_client.py, lines 42-91): unusable (`None`)
when geometry x or y is `None`; otherwise the normalized record.  The
object identifier is the Python `or`-chain over OBJECTID, OBJECTID_1, FID,
ObjectId. -/
def parse_feature (feature : RawFeature) (callsignField : String) : Option ParsedFeature :=
  let attr := feature.attributes
  let lon := aget feature.geometry "x"
  let lat := aget feature.geometry "y"
  if lon = AVal.vNull ∨ lat = AVal.vNull then none
  else some
    { lat := lat
      lon := lon
      object_id :=
        pyOr (aget attr "OBJECTID")
          (pyOr (aget attr "OBJECTID_1")
            (pyOr (aget attr "FID") (aget attr "ObjectId")))
      callsign := resolveCallsign attr callsignField
      remarks := buildRemarks attr }

/-- An XML element as built by `xml.etree.ElementTree`: tag, attribute
map, optional text, ordered children. -/
inductive Elem where
  | mk (tag : String) (attrs : List (String × String)) (text : Option String) (children : List Elem)
deriving Repr

def Elem.tag : Elem → String
  | .mk t _ _ _ => t

def Elem.attrs : Elem → List (String × String)
  | .mk _ a _ _ => a

def Elem.text : Elem → Option String
  | .mk _ _ x _ => x

def Elem.children : Elem → List Elem
  | .mk _ _ _ c => c

/-- Replace the children list, keeping tag, attributes and text. -/
def Elem.withChildren : Elem → List Elem → Elem
  | .mk t a x _, cs => .mk t a x cs

/-- `SubElement(event, ...)` appends the new child at the end. -/
def Elem.appendChild (e : Elem) (c : Elem) : Elem :=
  e.withChildren (e.children ++ [c])

/-- `event.find(tag)`: the first direct child carrying the tag. -/
def Elem.find (e : Elem) (tag : String) : Option Elem :=
  e.children.find? (fun c => c.tag == tag)

/-- Look an attribute up on an element. -/
def Elem.attr (e : Elem) (k : String) : Option String :=
  e.attrs.lookup k

/-- Python truthiness of the result of `event.find(tag)`: falsy when no
element was found or the found element has no children. -/
def pyTruthyElem : Option Elem → Bool
  | none => false
  | some c => !c.children.isEmpty

/-- `UNKNOWN` from cot_generator.py: the sentinel for unknown point
fields. -/
def UNKNOWN : String := "9999999.0"

/-- Stand-in for `iso8601_string_from_datetime` of the external
opentakserver package (outside this repository): instants are abstract
minute counts rendered injectively in decimal. -/
def iso8601String (t : Nat) : String := toString t

/-- `generate_event` (cot_generator.py, lines 8-17): the root event
element with version, start/time/stale timestamps, uid, type and how. -/
def generate_event (startTime staleTime : Nat) (uid : String)
    (cotType : String := "a-f-G-U-C") (how : String := "h-e") : Elem :=
  .mk "event"
    [("version", "2.0"),
     ("start", iso8601String startTime),
     ("time", iso8601String startTime),
     ("stale", iso8601String staleTime),
     ("uid", uid),
     ("type", cotType),
     ("how", how)]
    none []

/-- `generate_point` (cot_generator.py, lines 20-22): append a point child
whose five fields default to the UNKNOWN sentinel. -/
def generate_point (event : Elem) (lat : String := UNKNOWN) (lon : String := UNKNOWN)
    (ce : String := UNKNOWN) (hae : String := UNKNOWN) (le : String := UNKNOWN) : Elem :=
  event.appendChild (.mk "point" [("lat", lat), ("lon", lon), ("ce", ce), ("hae", hae), ("le", le)] none [])

/-- Replace the first child carrying the tag with the given element,
modelling in-place mutation of the element returned by `find`. -/
def replaceFirstWithTag : List Elem → String → Elem → List Elem
  | [], _, _ => []
  | c :: cs, t, d => if c.tag == t then d :: cs else c :: replaceFirstWithTag cs t d

/-- The create branch of `add_detail`: `SubElement(event, "detail")`
appends a fresh detail element, the new child is appended under it, and
the final falsy-check of `add_detail` re-appends the detail when the first
detail child of the event is still childless. -/
def addDetailCreate (event : Elem) (newChild : Elem) : Elem :=
  let newDetail := Elem.mk "detail" [] none [newChild]
  let e1 := event.appendChild newDetail
  if pyTruthyElem (e1.find "detail") then e1 else e1.appendChild newDetail

/-- `add_detail` (cot_generator.py, lines 25-34).  Python element
truthiness makes `if not detail:` take the create branch both when no
detail child exists and when the first detail child is empty; otherwise
the first detail child is extended in place, and the final check
`if not event.find("detail")` appends again only when the first detail
child of the updated event is still childless. -/
def add_detail (event : Elem) (tagName : String) (attributes : List (String × String))
    (text : Option String := none) : Elem :=
  let newChild := Elem.mk tagName attributes text []
  match event.find "detail" with
  | some d =>
    if d.children.isEmpty then addDetailCreate event newChild
    else
      let d' := d.withChildren (d.children ++ [newChild])
      let e1 := event.withChildren (replaceFirstWithTag event.children "detail" d')
      if pyTruthyElem (e1.find "detail") then e1 else e1.appendChild d'
  | none => addDetailCreate event newChild

/-- One configured feed, with the defaults `feed_config.get(...)` applies
in `fetch_and_publish_feed` (feed_manager.py, lines 43-52).  The type
selector field may be absent (`None`) or present; its Python truthiness is
`optStrTruthy`. -/
structure FeedConfig where
  name : String
  staleMinutes : Nat := 1440
  cotType : String := "a-f-G-U-C"
  cotTypeField : Option String := none
  cotTypeMapping : List (String × String) := []
  group : String := "__ANON__"
  callsignField : String := "InstallationName"
deriving DecidableEq, Repr

/-- Python truthiness of an optional string: `None` and the empty string
are falsy. -/
def optStrTruthy : Option String → Bool
  | none => false
  | some s => s != ""

/-- The EntityUID of a parsed feature (feed_manager.py, line 86):
the f-string arcgis-{feed_name}-{object_id}, where a null identifier
renders as the string None. -/
def uidOf (feedName : String) (objectId : AVal) : String :=
  "arcgis-" ++ feedName ++ "-" ++ strOfA objectId

/-- Per-feature CoT type resolution (feed_manager.py, lines 89-94): when
both the selector field and the mapping are truthy and the feature has a
non-null value for the selector, look `str(value)` up in the mapping with
the feed default as fallback; otherwise the feed default. -/
def resolveCotType (cfg : FeedConfig) (feature : RawFeature) : String :=
  if optStrTruthy cfg.cotTypeField && !cfg.cotTypeMapping.isEmpty then
    let fieldValue := aget feature.attributes (cfg.cotTypeField.getD "")
    if fieldValue != AVal.vNull then
      (cfg.cotTypeMapping.lookup (strOfA fieldValue)).getD cfg.cotType
    else cfg.cotType
  else cfg.cotType

/-- One creation event (feed_manager.py, lines 96-102): event root, point
from the parsed coordinates, contact detail with the callsign, and a
remarks detail when the remarks text is non-empty. -/
def buildCreationEvent (cfg : FeedConfig) (now staleT : Nat)
    (feature : RawFeature) (parsed : ParsedFeature) : Elem :=
  let uid := uidOf cfg.name parsed.object_id
  let e := generate_event now staleT uid (resolveCotType cfg feature)
  let e := generate_point e (strOfA parsed.lat) (strOfA parsed.lon)
  let e := add_detail e "contact" [("callsign", parsed.callsign)] none
  if parsed.remarks != "" then add_detail e "remarks" [] (some parsed.remarks) else e

/-- One deletion event (feed_manager.py, lines 113-116): fixed deletion
type t-x-d-d and an all-sentinel point, sharing the run timestamps. -/
def buildDeletionEvent (now staleT : Nat) (uid : String) : Elem :=
  generate_point (generate_event now staleT uid "t-x-d-d")

/-- Add to a set represented as a duplicate-free list in insertion order,
modelling `set.add`. -/
def sinsert (l : List String) (u : String) : List String :=
  if l.contains u then l else l ++ [u]

/-- The features of the batch that parse, paired with their parse result
(the loop at feed_manager.py, lines 81-84, skips `None`). -/
def parsedOf (cfg : FeedConfig) (features : List RawFeature) : List (RawFeature × ParsedFeature) :=
  features.filterMap fun f => (parse_feature f cfg.callsignField).map (fun p => (f, p))

/-- The `published` counter after the creation loop: one increment per
feature that parses. -/
def publishedCount (cfg : FeedConfig) (features : List RawFeature) : Nat :=
  (parsedOf cfg features).length

/-- The `current_uids` set after the creation loop (feed_manager.py,
lines 86-87), as a duplicate-free list in first-insertion order. -/
def currentUidList (cfg : FeedConfig) (features : List RawFeature) : List String :=
  (parsedOf cfg features).foldl (fun acc fp => sinsert acc (uidOf cfg.name fp.2.object_id)) []

/-- The creation events published by the loop, in batch order. -/
def creationEvents (cfg : FeedConfig) (now staleT : Nat) (features : List RawFeature) : List Elem :=
  (parsedOf cfg features).map fun fp => buildCreationEvent cfg now staleT fp.1 fp.2

/-- Which operation of the run raises first, if any: the broker
connect/declare phase, the n-th multicast publish (creations first, then
deletions, zero-based), or the close/cleanup phase after the state commit.
Every raise is caught by the one `except BaseException` handler of
`fetch_and_publish_feed` and turned into a failure result. -/
inductive FailAt where
  | noFail
  | connect
  | publishAt (n : Nat)
  | close
deriving DecidableEq, Repr

/-- The result dict of `fetch_and_publish_feed`: the success shape carries
the published, deleted and total_features counts. -/
inductive RunResult where
  | success (feed : String) (published deleted totalFeatures : Nat)
  | failure (feed : String)
deriving DecidableEq, Repr

def RunResult.isSuccess : RunResult → Bool
  | .success _ _ _ _ => true
  | .failure _ => false

def RunResult.deleted? : RunResult → Option Nat
  | .success _ _ d _ => some d
  | .failure _ => none

def RunResult.published? : RunResult → Option Nat
  | .success _ p _ _ => some p
  | .failure _ => none

/-- Everything observable about one run: the result dict, the remembered
UID set of this feed after the run, and the creation and deletion events
actually handed to the broker before any failure. -/
structure RunOutput where
  result : RunResult
  prevAfter : List String
  creationsPublished : List Elem
  deletionsPublished : List Elem

/-- `fetch_and_publish_feed` (feed_manager.py, lines 37-139), viewed at
one feed: `prev` is `_previous_uids.get(feed_name, set())` before the run
and `prevAfter` its value after.  The fetch result is passed in as data
(an empty list also covers every fetch failure, which
`fetch_arcgis_features` degrades to an empty list).  The `failAt` oracle
names the first raising operation: a connect failure or a publish failure
happens before the commit at line 121 and leaves `prev` untouched; a close
failure happens after the commit, so the state is already replaced when
the failure result is returned. -/
def fetch_and_publish_feed (cfg : FeedConfig) (prev : List String)
    (features : List RawFeature) (now : Nat) (failAt : FailAt) : RunOutput :=
  if features.isEmpty then
    ⟨.success cfg.name 0 0 0, prev, [], []⟩
  else if failAt = .connect then
    ⟨.failure cfg.name, prev, [], []⟩
  else
    let staleT := now + cfg.staleMinutes
    let creations := creationEvents cfg now staleT features
    let published := publishedCount cfg features
    let current := currentUidList cfg features
    let removed := prev.filter (fun u => !current.contains u)
    let deletions := removed.map (buildDeletionEvent now staleT)
    match failAt with
    | .publishAt n =>
      if n < creations.length + deletions.length then
        ⟨.failure cfg.name, prev, creations.take n, deletions.take (n - creations.length)⟩
      else
        ⟨.success cfg.name published removed.length features.length, current, creations, deletions⟩
    | .close =>
      ⟨.failure cfg.name, current, creations, deletions⟩
    | _ =>
      ⟨.success cfg.name published removed.length features.length, current, creations, deletions⟩

/-- The uid attribute of an event element, as placed by `generate_event`. -/
def eventUid (e : Elem) : String :=
  (e.attr "uid").getD ""

/-- The UID set derived from the current fetch: the EntityUID of every
feature of the batch that parses. -/
def fetchUidSet (cfg : FeedConfig) (features : List RawFeature) : Finset String :=
  ((parsedOf cfg features).map (fun fp => uidOf cfg.name fp.2.object_id)).toFinset


/-- A minimal sample feed configuration (all tunables at their defaults). -/
def cfgF : FeedConfig := { name := "f" }

/-- A sample usable feature carrying only an integer OBJECTID and a
point geometry. -/
def featOID (n : Int) : RawFeature :=
  { attributes := [("OBJECTID", .vInt n)], geometry := [("x", .vInt 10), ("y", .vInt 20)] }

/-- Comparison definition following the words of the specification for
object identifier resolution: try the four conventional identifier
attribute names in order and let the first NON-NULL value win (null when
all four are null).  The source instead uses a Python or-chain, which
skips falsy non-null values; the two are compared in the C7 theorems. -/
def specFirstNonNullObjectId (attr : List (String × AVal)) : AVal :=
  ([aget attr "OBJECTID", aget attr "OBJECTID_1", aget attr "FID",
    aget attr "ObjectId"].find? (fun v => v != AVal.vNull)).getD AVal.vNull

/-! ### Helper lemmas -/

theorem Elem.attrs_withChildren (e : Elem) (cs : List Elem) : (e.withChildren cs).attrs = e.attrs := by
  cases e
  rfl

theorem Elem.attrs_appendChild (e c : Elem) : (e.appendChild c).attrs = e.attrs := by
  simp [Elem.appendChild, Elem.attrs_withChildren]

theorem attrs_addDetailCreate (e c : Elem) : (addDetailCreate e c).attrs = e.attrs := by
  simp only [addDetailCreate]
  split
  · simp [Elem.attrs_appendChild]
  · simp [Elem.attrs_appendChild]

theorem attrs_add_detail (e : Elem) (t : String) (a : List (String × String)) (x : Option String) :
    (add_detail e t a x).attrs = e.attrs := by
  simp only [add_detail]
  split
  · split
    · exact attrs_addDetailCreate _ _
    · split
      · simp [Elem.attrs_withChildren]
      · simp [Elem.attrs_appendChild, Elem.attrs_withChildren]
  · exact attrs_addDetailCreate _ _

theorem contains_true_iff (l : List String) (u : String) : l.contains u = true ↔ u ∈ l := by
  simp [List.contains, List.elem_eq_mem]

theorem contains_false_iff (l : List String) (u : String) : l.contains u = false ↔ u ∉ l := by
  simp [List.contains, List.elem_eq_mem]

theorem attrs_generate_point (e : Elem) (lat lon ce hae le : String) :
    (generate_point e lat lon ce hae le).attrs = e.attrs := by
  simp [generate_point, Elem.attrs_appendChild]

theorem eventUid_buildDeletionEvent (n s : Nat) (u : String) :
    eventUid (buildDeletionEvent n s u) = u := rfl

theorem sinsert_nodup (l : List String) (u : String) (h : l.Nodup) : (sinsert l u).Nodup := by
  unfold sinsert
  split
  · exact h
  · next hc =>
    rw [Bool.not_eq_true, contains_false_iff] at hc
    simp [List.nodup_append, h, hc]

theorem sinsert_toFinset (l : List String) (u : String) :
    (sinsert l u).toFinset = insert u l.toFinset := by
  unfold sinsert
  split
  · next hc =>
    rw [contains_true_iff] at hc
    ext a
    simp only [List.mem_toFinset, Finset.mem_insert]
    constructor
    · exact fun h => Or.inr h
    · rintro (rfl | h)
      · exact hc
      · exact h
  · ext a
    simp [List.mem_toFinset, or_comm]

theorem foldl_sinsert_nodup {α : Type} (f : α → String) (l : List α) (acc : List String)
    (h : acc.Nodup) : (l.foldl (fun acc a => sinsert acc (f a)) acc).Nodup := by
  induction l generalizing acc with
  | nil => exact h
  | cons a l ih => exact ih _ (sinsert_nodup _ _ h)

theorem foldl_sinsert_toFinset {α : Type} (f : α → String) (l : List α) (acc : List String) :
    (l.foldl (fun acc a => sinsert acc (f a)) acc).toFinset = acc.toFinset ∪ (l.map f).toFinset := by
  induction l generalizing acc with
  | nil => simp
  | cons a l ih =>
    simp only [List.foldl_cons, List.map_cons, List.toFinset_cons]
    rw [ih, sinsert_toFinset]
    ext b
    simp only [Finset.mem_union, Finset.mem_insert, List.mem_toFinset]
    tauto

theorem currentUidList_nodup (cfg : FeedConfig) (features : List RawFeature) :
    (currentUidList cfg features).Nodup :=
  foldl_sinsert_nodup _ _ [] List.nodup_nil

theorem currentUidList_toFinset (cfg : FeedConfig) (features : List RawFeature) :
    (currentUidList cfg features).toFinset = fetchUidSet cfg features := by
  unfold currentUidList fetchUidSet
  rw [foldl_sinsert_toFinset]
  simp

theorem mem_currentUidList (cfg : FeedConfig) (features : List RawFeature) (u : String) :
    u ∈ currentUidList cfg features ↔ u ∈ fetchUidSet cfg features := by
  rw [← List.mem_toFinset, currentUidList_toFinset]

theorem removedList_toFinset (cfg : FeedConfig) (features : List RawFeature) (prev : List String) :
    (prev.filter (fun u => !(currentUidList cfg features).contains u)).toFinset
      = prev.toFinset \ fetchUidSet cfg features := by
  ext a
  simp only [List.mem_toFinset, List.mem_filter, Finset.mem_sdiff, Bool.not_eq_true',
    contains_false_iff, ← currentUidList_toFinset, List.mem_toFinset]

theorem removedList_length (cfg : FeedConfig) (features : List RawFeature) (prev : List String)
    (hnd : prev.Nodup) :
    (prev.filter (fun u => !(currentUidList cfg features).contains u)).length
      = (prev.toFinset \ fetchUidSet cfg features).card := by
  rw [← removedList_toFinset cfg features prev,
    List.toFinset_card_of_nodup (hnd.filter _)]

theorem run_noFail_eq (cfg : FeedConfig) (prev : List String) (features : List RawFeature)
    (now : Nat) (hne : features ≠ []) :
    fetch_and_publish_feed cfg prev features now .noFail =
      ⟨.success cfg.name (publishedCount cfg features)
          (prev.filter (fun u => !(currentUidList cfg features).contains u)).length
          features.length,
        currentUidList cfg features,
        creationEvents cfg now (now + cfg.staleMinutes) features,
        (prev.filter (fun u => !(currentUidList cfg features).contains u)).map
          (buildDeletionEvent now (now + cfg.staleMinutes))⟩ := by
  have hise : features.isEmpty = false := by
    cases features with
    | nil => exact absurd rfl hne
    | cons a l => rfl
  simp [fetch_and_publish_feed, hise]

/-! ### Claim theorems -/

/-- C4: a run whose fetch yields an empty feature sequence returns success
with published, deleted and total counts all zero, publishes no events,
and leaves the remembered UID set of the feed exactly as it was. -/
theorem c4_empty_fetch (cfg : FeedConfig) (prev : List String) (now : Nat) (failAt : FailAt) :
    fetch_and_publish_feed cfg prev [] now failAt
      = ⟨.success cfg.name 0 0 0, prev, [], []⟩ := rfl

/-- C1: in an error-free run over a non-empty fetch, the UIDs of the
emitted deletion events form exactly the remembered set minus the UID set
derived from the current fetch, the reported deleted count is the
cardinality of that difference, and the remembered set after the run is
exactly the UID set of the current fetch (wholesale replacement). -/
theorem c1_diff_correctness (cfg : FeedConfig) (prev : List String)
    (features : List RawFeature) (now : Nat)
    (hne : features ≠ []) (hnd : prev.Nodup) :
    ((fetch_and_publish_feed cfg prev features now .noFail).deletionsPublished.map eventUid).toFinset
        = prev.toFinset \ fetchUidSet cfg features ∧
    (fetch_and_publish_feed cfg prev features now .noFail).result
        = .success cfg.name (publishedCount cfg features)
            ((prev.toFinset \ fetchUidSet cfg features).card) features.length ∧
    (fetch_and_publish_feed cfg prev features now .noFail).prevAfter.toFinset
        = fetchUidSet cfg features := by
  rw [run_noFail_eq cfg prev features now hne]
  refine ⟨?_, ?_, ?_⟩
  · simp only [List.map_map]
    have hcomp : (eventUid ∘ buildDeletionEvent now (now + cfg.staleMinutes)) = id := by
      funext u
      simp [eventUid_buildDeletionEvent]
    rw [hcomp, List.map_id]
    exact removedList_toFinset cfg features prev
  · rw [removedList_length cfg features prev hnd]
  · exact currentUidList_toFinset cfg features

/-- Witness for C1, mirroring the worked example of the specification:
remembered set A, B, C and a current fetch yielding B, C, D. -/
theorem c1_diff_correctness_witness :
    (["arcgis-f-1", "arcgis-f-2", "arcgis-f-3"] : List String).Nodup ∧
    ([RawFeature.mk [("OBJECTID", .vInt 2)] [("x", .vInt 10), ("y", .vInt 20)],
      RawFeature.mk [("OBJECTID", .vInt 3)] [("x", .vInt 10), ("y", .vInt 20)],
      RawFeature.mk [("OBJECTID", .vInt 4)] [("x", .vInt 10), ("y", .vInt 20)]] ≠ []) ∧
    (((fetch_and_publish_feed { name := "f" } ["arcgis-f-1", "arcgis-f-2", "arcgis-f-3"]
        [RawFeature.mk [("OBJECTID", .vInt 2)] [("x", .vInt 10), ("y", .vInt 20)],
         RawFeature.mk [("OBJECTID", .vInt 3)] [("x", .vInt 10), ("y", .vInt 20)],
         RawFeature.mk [("OBJECTID", .vInt 4)] [("x", .vInt 10), ("y", .vInt 20)]] 0
        .noFail).deletionsPublished.map eventUid).toFinset
      = (["arcgis-f-1", "arcgis-f-2", "arcgis-f-3"] : List String).toFinset
          \ fetchUidSet { name := "f" }
              [RawFeature.mk [("OBJECTID", .vInt 2)] [("x", .vInt 10), ("y", .vInt 20)],
               RawFeature.mk [("OBJECTID", .vInt 3)] [("x", .vInt 10), ("y", .vInt 20)],
               RawFeature.mk [("OBJECTID", .vInt 4)] [("x", .vInt 10), ("y", .vInt 20)]]) :=
  ⟨by decide, by decide,
    (c1_diff_correctness { name := "f" } ["arcgis-f-1", "arcgis-f-2", "arcgis-f-3"]
      [RawFeature.mk [("OBJECTID", .vInt 2)] [("x", .vInt 10), ("y", .vInt 20)],
       RawFeature.mk [("OBJECTID", .vInt 3)] [("x", .vInt 10), ("y", .vInt 20)],
       RawFeature.mk [("OBJECTID", .vInt 4)] [("x", .vInt 10), ("y", .vInt 20)]] 0
      (by decide) (by decide)).1⟩

/-- C2 counterexample: with an empty remembered set and one fetched
feature, a raise during the close/cleanup phase yields a failure result,
yet the remembered set has already been replaced (the commit at
feed_manager.py line 121 happens before the close at lines 123-124). -/
theorem c2_counterexample :
    (fetch_and_publish_feed cfgF [] [featOID 1] 0 .close).result.isSuccess = false ∧
    (fetch_and_publish_feed cfgF [] [featOID 1] 0 .close).prevAfter = ["arcgis-f-1"] ∧
    ([] : List String) ≠ ["arcgis-f-1"] :=
  ⟨by decide, by decide, by decide⟩

/-- C2 (amended): a run that returns a failure result caused by any error
raised before the state commit (connect/declare phase or any publish,
creation or deletion) leaves the remembered UID set of the feed unchanged;
only a raise in the close/cleanup phase after the commit can return
failure with the set already replaced. -/
theorem c2_amended_pre_commit (cfg : FeedConfig) (prev : List String)
    (features : List RawFeature) (now : Nat) (failAt : FailAt)
    (hclose : failAt ≠ .close)
    (hfail : (fetch_and_publish_feed cfg prev features now failAt).result.isSuccess = false) :
    (fetch_and_publish_feed cfg prev features now failAt).prevAfter = prev := by
  cases features with
  | nil => simp [fetch_and_publish_feed, RunResult.isSuccess] at hfail
  | cons f fs =>
    cases failAt with
    | noFail =>
      rw [run_noFail_eq cfg prev (f :: fs) now (by simp)] at hfail
      simp [RunResult.isSuccess] at hfail
    | connect => simp [fetch_and_publish_feed]
    | close => exact absurd rfl hclose
    | publishAt n =>
      have hise : (f :: fs).isEmpty = false := rfl
      simp only [fetch_and_publish_feed, hise, Bool.false_eq_true, if_false,
        reduceCtorEq] at hfail ⊢
      split at hfail
      · next h => rw [if_pos h]
      · next h => simp [RunResult.isSuccess] at hfail

/-- Witness for the amended C2: a publish failure on the very first
creation event leaves the remembered set untouched. -/
theorem c2_amended_pre_commit_witness :
    (FailAt.publishAt 0 ≠ FailAt.close) ∧
    ((fetch_and_publish_feed cfgF ["arcgis-f-9"] [featOID 1] 0 (.publishAt 0)).result.isSuccess
      = false) ∧
    (fetch_and_publish_feed cfgF ["arcgis-f-9"] [featOID 1] 0 (.publishAt 0)).prevAfter
      = ["arcgis-f-9"] :=
  ⟨by decide, by decide,
    c2_amended_pre_commit cfgF ["arcgis-f-9"] [featOID 1] 0 (.publishAt 0)
      (by decide) (by decide)⟩

/-- C3 counterexample: with the default stale duration of 1440 minutes, the
deletion event of a removed UID carries the shared run stale timestamp
(start plus 1440 minutes), not a timestamp one minute after the start of
the run (feed_manager.py lines 73-74 and 113-114 reuse `stale_time` for
deletions; only `clear_feed` uses a one-minute window). -/
theorem c3_counterexample :
    ((fetch_and_publish_feed cfgF ["arcgis-f-old"] [featOID 2] 0 .noFail).deletionsPublished.map
        (fun e => e.attr "stale"))
      = [some (iso8601String 1440)] ∧
    iso8601String 1440 ≠ iso8601String (0 + 1) :=
  ⟨by decide, by decide⟩

/-- C3 (amended): every deletion event published for a removed UID during
an error-free run has the fixed deletion type t-x-d-d, start timestamp
equal to the shared run start, stale timestamp equal to the shared run
stale time (start plus the stale duration of the feed, the same window as
the creation events of the run), and a point child whose five fields are
all the fixed unknown sentinel. -/
theorem c3_amended_deletion_shape (cfg : FeedConfig) (prev : List String)
    (features : List RawFeature) (now : Nat) :
    ∀ e ∈ (fetch_and_publish_feed cfg prev features now .noFail).deletionsPublished,
      e.attr "type" = some "t-x-d-d" ∧
      e.attr "start" = some (iso8601String now) ∧
      e.attr "stale" = some (iso8601String (now + cfg.staleMinutes)) ∧
      e.find "point" = some (Elem.mk "point"
        [("lat", UNKNOWN), ("lon", UNKNOWN), ("ce", UNKNOWN), ("hae", UNKNOWN), ("le", UNKNOWN)]
        none []) := by
  cases features with
  | nil =>
    intro e he
    rw [c4_empty_fetch] at he
    exact absurd he (List.not_mem_nil e)
  | cons f fs =>
    rw [run_noFail_eq cfg prev (f :: fs) now (by simp)]
    intro e he
    rcases List.mem_map.mp he with ⟨u, _, rfl⟩
    exact ⟨rfl, rfl, rfl, rfl⟩

/-- Witness for the amended C3: the deletion event of the single removed
UID of a concrete run has the stated type, timestamps and sentinel point. -/
theorem c3_amended_deletion_shape_witness :
    (buildDeletionEvent 0 1440 "arcgis-f-old").attr "type" = some "t-x-d-d" ∧
    (buildDeletionEvent 0 1440 "arcgis-f-old").attr "start" = some (iso8601String 0) ∧
    (buildDeletionEvent 0 1440 "arcgis-f-old").attr "stale"
      = some (iso8601String (0 + cfgF.staleMinutes)) ∧
    (buildDeletionEvent 0 1440 "arcgis-f-old").find "point" = some (Elem.mk "point"
      [("lat", UNKNOWN), ("lon", UNKNOWN), ("ce", UNKNOWN), ("hae", UNKNOWN), ("le", UNKNOWN)]
      none []) := by
  have hdel : (fetch_and_publish_feed cfgF ["arcgis-f-old"] [featOID 2] 0
      .noFail).deletionsPublished = [buildDeletionEvent 0 1440 "arcgis-f-old"] := rfl
  have hmem : buildDeletionEvent 0 1440 "arcgis-f-old"
      ∈ (fetch_and_publish_feed cfgF ["arcgis-f-old"] [featOID 2] 0 .noFail).deletionsPublished := by
    rw [hdel]
    exact List.mem_singleton_self _
  exact c3_amended_deletion_shape cfgF ["arcgis-f-old"] [featOID 2] 0 _ hmem

theorem attr_generate_event_type (n s : Nat) (u ty h : String) :
    (generate_event n s u ty h).attr "type" = some ty := rfl

theorem attr_buildCreationEvent (cfg : FeedConfig) (now staleT : Nat)
    (feature : RawFeature) (parsed : ParsedFeature) (k : String) :
    (buildCreationEvent cfg now staleT feature parsed).attr k
      = (generate_event now staleT (uidOf cfg.name parsed.object_id)
          (resolveCotType cfg feature)).attr k := by
  simp only [buildCreationEvent, Elem.attr]
  congr 1
  split
  · rw [attrs_add_detail, attrs_add_detail, attrs_generate_point]
  · rw [attrs_add_detail, attrs_generate_point]

theorem resolveCotType_mapped (cfg : FeedConfig) (feature : RawFeature) (f ty : String)
    (hf : cfg.cotTypeField = some f) (hne : f ≠ "") (hmne : cfg.cotTypeMapping ≠ [])
    (hval : aget feature.attributes f ≠ .vNull)
    (hlook : cfg.cotTypeMapping.lookup (strOfA (aget feature.attributes f)) = some ty) :
    resolveCotType cfg feature = ty := by
  have h1 : (f != "") = true := bne_iff_ne.mpr hne
  have h2 : cfg.cotTypeMapping.isEmpty = false := by
    cases hm : cfg.cotTypeMapping with
    | nil => exact absurd hm hmne
    | cons a l => rfl
  have h3 : (aget feature.attributes f != AVal.vNull) = true := bne_iff_ne.mpr hval
  unfold resolveCotType
  rw [hf]
  simp only [optStrTruthy, h1, h2, Bool.not_false, Bool.and_self, if_pos, Option.getD_some, h3,
    if_true, hlook]

theorem resolveCotType_fallback (cfg : FeedConfig) (feature : RawFeature) (f : String)
    (hf : cfg.cotTypeField = some f) (hne : f ≠ "") (hmne : cfg.cotTypeMapping ≠ [])
    (hdef : aget feature.attributes f = .vNull ∨
      cfg.cotTypeMapping.lookup (strOfA (aget feature.attributes f)) = none) :
    resolveCotType cfg feature = cfg.cotType := by
  have h1 : (f != "") = true := bne_iff_ne.mpr hne
  have h2 : cfg.cotTypeMapping.isEmpty = false := by
    cases hm : cfg.cotTypeMapping with
    | nil => exact absurd hm hmne
    | cons a l => rfl
  unfold resolveCotType
  rw [hf]
  simp only [optStrTruthy, h1, h2, Bool.not_false, Bool.and_self, if_pos, Option.getD_some]
  rcases hdef with hnull | hnone
  · rw [hnull]
    simp
  · by_cases hnull : aget feature.attributes f = AVal.vNull
    · rw [hnull]
      simp
    · have h3 : (aget feature.attributes f != AVal.vNull) = true := bne_iff_ne.mpr hnull
      simp only [h3, if_true, hnone, Option.getD_none]

theorem resolveCotType_unconfigured (cfg : FeedConfig) (feature : RawFeature)
    (h : cfg.cotTypeField = none ∨ cfg.cotTypeField = some "" ∨ cfg.cotTypeMapping = []) :
    resolveCotType cfg feature = cfg.cotType := by
  unfold resolveCotType
  rcases h with hf | hf | hm
  · rw [hf]
    rfl
  · rw [hf]
    rfl
  · rw [hm]
    simp [optStrTruthy]

/-- C5: the type attribute of the creation event emitted for a fetched
feature is the mapped value when the feed defines a non-empty type
selector field and a non-empty mapping and the feature carries a non-null
selector value found in the mapping; it is the feed default when the
selector value is null (attribute absent) or unmapped; and it is always
the feed default when no selector or no mapping is configured. -/
theorem c5_type_resolution (cfg : FeedConfig) (now staleT : Nat)
    (feature : RawFeature) (parsed : ParsedFeature) :
    (∀ f : String, cfg.cotTypeField = some f → f ≠ "" → cfg.cotTypeMapping ≠ [] →
      (∀ ty : String, aget feature.attributes f ≠ .vNull →
        cfg.cotTypeMapping.lookup (strOfA (aget feature.attributes f)) = some ty →
        (buildCreationEvent cfg now staleT feature parsed).attr "type" = some ty) ∧
      ((aget feature.attributes f = .vNull ∨
        cfg.cotTypeMapping.lookup (strOfA (aget feature.attributes f)) = none) →
        (buildCreationEvent cfg now staleT feature parsed).attr "type" = some cfg.cotType)) ∧
    ((cfg.cotTypeField = none ∨ cfg.cotTypeField = some "" ∨ cfg.cotTypeMapping = []) →
      (buildCreationEvent cfg now staleT feature parsed).attr "type" = some cfg.cotType) := by
  constructor
  · intro f hf hne hmne
    constructor
    · intro ty hval hlook
      rw [attr_buildCreationEvent, attr_generate_event_type,
        resolveCotType_mapped cfg feature f ty hf hne hmne hval hlook]
    · intro hdef
      rw [attr_buildCreationEvent, attr_generate_event_type,
        resolveCotType_fallback cfg feature f hf hne hmne hdef]
  · intro h
    rw [attr_buildCreationEvent, attr_generate_event_type,
      resolveCotType_unconfigured cfg feature h]

/-- Witness for C5: a feature whose selector attribute value 7 is mapped
yields an event typed with the mapped value. -/
theorem c5_type_resolution_witness :
    (buildCreationEvent
        { name := "f", cotTypeField := some "T", cotTypeMapping := [("7", "a-h-G")] }
        0 1440
        { attributes := [("T", .vInt 7)], geometry := [("x", .vInt 1), ("y", .vInt 2)] }
        { lat := .vInt 2, lon := .vInt 1, object_id := .vNull, callsign := "Unknown",
          remarks := "" }).attr "type"
      = some "a-h-G" :=
  ((c5_type_resolution
      { name := "f", cotTypeField := some "T", cotTypeMapping := [("7", "a-h-G")] }
      0 1440
      { attributes := [("T", .vInt 7)], geometry := [("x", .vInt 1), ("y", .vInt 2)] }
      { lat := .vInt 2, lon := .vInt 1, object_id := .vNull, callsign := "Unknown",
        remarks := "" }).1
    "T" rfl (by decide) (by decide)).1 "a-h-G" (by decide) (by decide)

theorem parsedOf_length (cfg : FeedConfig) (features : List RawFeature) :
    (parsedOf cfg features).length
      = (features.filterMap (fun f => parse_feature f cfg.callsignField)).length := by
  unfold parsedOf
  induction features with
  | nil => rfl
  | cons f fs ih =>
    simp only [List.filterMap_cons]
    cases h : parse_feature f cfg.callsignField with
    | none => simpa using ih
    | some p => simpa using ih

/-- C6: a raw feature parses to unusable (`None`) exactly when its
geometry x or y is absent (null); every feature with both present parses
to a normalized record, and unusable features are skipped without failing
the batch: an error-free run still succeeds and its published count is the
number of parseable features. -/
theorem c6_parse_unusable_iff :
    (∀ (feature : RawFeature) (csf : String),
      parse_feature feature csf = none ↔
        (aget feature.geometry "x" = .vNull ∨ aget feature.geometry "y" = .vNull)) ∧
    (∀ (cfg : FeedConfig) (prev : List String) (features : List RawFeature) (now : Nat),
      (fetch_and_publish_feed cfg prev features now .noFail).result.isSuccess = true ∧
      (fetch_and_publish_feed cfg prev features now .noFail).result.published?
        = some ((features.filterMap (fun f => parse_feature f cfg.callsignField)).length)) := by
  constructor
  · intro feature csf
    simp only [parse_feature]
    split
    · next h => exact iff_of_true rfl h
    · next h => exact iff_of_false (by simp) h
  · intro cfg prev features now
    cases features with
    | nil => exact ⟨rfl, rfl⟩
    | cons f fs =>
      rw [run_noFail_eq cfg prev (f :: fs) now (by simp)]
      refine ⟨rfl, ?_⟩
      simp only [RunResult.published?, publishedCount, Option.some.injEq]
      exact parsedOf_length cfg (f :: fs)

/-- Witness for C6: a feature lacking geometry y is unusable, and a run
over that feature together with a usable one succeeds publishing exactly
the usable one. -/
theorem c6_parse_unusable_iff_witness :
    parse_feature { attributes := [("OBJECTID", .vInt 1)], geometry := [("x", .vInt 1)] }
        "InstallationName" = none ∧
    (fetch_and_publish_feed cfgF []
        [{ attributes := [("OBJECTID", .vInt 1)], geometry := [("x", .vInt 1)] }, featOID 2]
        0 .noFail).result.published? = some 1 :=
  ⟨(c6_parse_unusable_iff.1
      { attributes := [("OBJECTID", .vInt 1)], geometry := [("x", .vInt 1)] }
      "InstallationName").mpr (Or.inr rfl),
   (c6_parse_unusable_iff.2 cfgF []
      [{ attributes := [("OBJECTID", .vInt 1)], geometry := [("x", .vInt 1)] }, featOID 2]
      0).2.trans (by decide)⟩

/-- C7 counterexample: with OBJECTID bound to 0 (non-null) and FID bound
to 5, the specification resolution picks 0 (the first non-null value), but
the parser, using a Python or-chain, skips the falsy 0 and yields 5. -/
theorem c7_counterexample :
    specFirstNonNullObjectId [("OBJECTID", .vInt 0), ("FID", .vInt 5)] = .vInt 0 ∧
    (parse_feature
        { attributes := [("OBJECTID", .vInt 0), ("FID", .vInt 5)],
          geometry := [("x", .vInt 1), ("y", .vInt 2)] }
        "InstallationName").map ParsedFeature.object_id = some (.vInt 5) ∧
    (AVal.vInt 5) ≠ (AVal.vInt 0) :=
  ⟨by decide, by decide, by decide⟩

/-- C7 (amended): the parser resolves the object identifier by trying,
in order, OBJECTID, OBJECTID_1, FID and ObjectId, and the first TRUTHY
value wins (non-null, non-zero and non-empty; a Python or-chain); when
none of the four is truthy the identifier is the value of the last name,
ObjectId, and in particular a feature where all four are null parses to a
record with a null object identifier. -/
theorem c7_amended_object_id (feature : RawFeature) (csf : String) (p : ParsedFeature)
    (hp : parse_feature feature csf = some p) :
    p.object_id
      = ([aget feature.attributes "OBJECTID", aget feature.attributes "OBJECTID_1",
          aget feature.attributes "FID", aget feature.attributes "ObjectId"].find?
            truthyA).getD (aget feature.attributes "ObjectId") ∧
    ((aget feature.attributes "OBJECTID" = .vNull ∧
      aget feature.attributes "OBJECTID_1" = .vNull ∧
      aget feature.attributes "FID" = .vNull ∧
      aget feature.attributes "ObjectId" = .vNull) →
      p.object_id = .vNull) := by
  simp only [parse_feature] at hp
  split at hp
  · exact absurd hp (by simp)
  · rw [Option.some.injEq] at hp
    subst hp
    constructor
    · by_cases ha : truthyA (aget feature.attributes "OBJECTID") <;>
      by_cases hb : truthyA (aget feature.attributes "OBJECTID_1") <;>
      by_cases hc : truthyA (aget feature.attributes "FID") <;>
      by_cases hd : truthyA (aget feature.attributes "ObjectId") <;>
      simp [pyOr, ha, hb, hc, hd]
    · rintro ⟨h1, h2, h3, h4⟩
      simp [pyOr, h1, h2, h3, h4, truthyA]

/-- Witness for the amended C7: a feature with OBJECTID 7 resolves its
identifier to 7, the first truthy candidate. -/
theorem c7_amended_object_id_witness :
    (ParsedFeature.mk (.vInt 20) (.vInt 10) (.vInt 7) "Unknown" "").object_id
      = ([aget (featOID 7).attributes "OBJECTID", aget (featOID 7).attributes "OBJECTID_1",
          aget (featOID 7).attributes "FID", aget (featOID 7).attributes "ObjectId"].find?
            truthyA).getD (aget (featOID 7).attributes "ObjectId") :=
  (c7_amended_object_id (featOID 7) "InstallationName"
    (ParsedFeature.mk (.vInt 20) (.vInt 10) (.vInt 7) "Unknown" "") (by decide)).1

theorem Elem.children_withChildren (e : Elem) (cs : List Elem) :
    (e.withChildren cs).children = cs := by
  cases e
  rfl

theorem Elem.tag_withChildren (e : Elem) (cs : List Elem) :
    (e.withChildren cs).tag = e.tag := by
  cases e
  rfl

theorem Elem.withChildren_withChildren (e : Elem) (cs cs' : List Elem) :
    (e.withChildren cs).withChildren cs' = e.withChildren cs' := by
  cases e
  rfl

theorem Elem.children_appendChild (e c : Elem) :
    (e.appendChild c).children = e.children ++ [c] := by
  simp [Elem.appendChild, Elem.children_withChildren]

theorem replaceFirst_append_match (as bs : List Elem) (d d' : Elem) (t : String)
    (hl : ∀ c ∈ as, (c.tag == t) = false) (hd : (d.tag == t) = true) :
    replaceFirstWithTag (as ++ d :: bs) t d' = as ++ d' :: bs := by
  induction as with
  | nil => simp [replaceFirstWithTag, hd]
  | cons c cs ih =>
    have hc := hl c (List.mem_cons_self c cs)
    simp only [List.cons_append, replaceFirstWithTag, hc, Bool.false_eq_true, if_false,
      List.cons.injEq, true_and]
    exact ih fun c hm => hl c (List.mem_cons_of_mem _ hm)

theorem add_detail_create (ev : Elem) (t : String) (a : List (String × String))
    (x : Option String) (hnone : ev.find "detail" = none) :
    add_detail ev t a x
      = ev.withChildren (ev.children ++ [Elem.mk "detail" [] none [Elem.mk t a x []]]) := by
  have hnone' : ev.children.find? (fun c => c.tag == "detail") = none := hnone
  unfold add_detail
  simp only [hnone]
  unfold addDetailCreate
  have hfind1 : (ev.appendChild (Elem.mk "detail" [] none [Elem.mk t a x []])).find "detail"
      = some (Elem.mk "detail" [] none [Elem.mk t a x []]) := by
    simp only [Elem.find, Elem.children_appendChild, List.find?_append, hnone']
    simp [List.find?, Elem.tag]
  simp only [hfind1, pyTruthyElem]
  simp [Elem.appendChild, Elem.children]

theorem add_detail_reuse (e : Elem) (as bs : List Elem) (d : Elem) (t : String)
    (a : List (String × String)) (x : Option String)
    (hch : e.children = as ++ d :: bs)
    (hl : ∀ c ∈ as, (c.tag == "detail") = false)
    (hdtag : (d.tag == "detail") = true)
    (hdn : d.children ≠ []) :
    add_detail e t a x
      = e.withChildren (as ++ (d.withChildren (d.children ++ [Elem.mk t a x []])) :: bs) := by
  have hasnone : as.find? (fun c => c.tag == "detail") = none :=
    List.find?_eq_none.mpr (by intro c hc; simp [hl c hc])
  have hfd : e.find "detail" = some d := by
    simp only [Elem.find, hch, List.find?_append, hasnone, Option.none_or, List.find?_cons,
      hdtag]
  have hie : d.children.isEmpty = false := by
    cases hc : d.children with
    | nil => exact absurd hc hdn
    | cons y ys => rfl
  have hfind2 : (e.withChildren
      (as ++ (d.withChildren (d.children ++ [Elem.mk t a x []])) :: bs)).find "detail"
      = some (d.withChildren (d.children ++ [Elem.mk t a x []])) := by
    have htag2 : ((d.withChildren (d.children ++ [Elem.mk t a x []])).tag == "detail") = true := by
      rw [Elem.tag_withChildren]
      exact hdtag
    simp only [Elem.find, Elem.children_withChildren, List.find?_append, hasnone,
      Option.none_or, List.find?_cons, htag2]
  unfold add_detail
  simp only [hfd, hie, Bool.false_eq_true, if_false]
  rw [hch, replaceFirst_append_match as bs d _ "detail" hl hdtag]
  simp only [hfind2, pyTruthyElem, Elem.children_withChildren]
  have : (d.children ++ [Elem.mk t a x []]).isEmpty = false := by
    cases d.children <;> rfl
  simp [this]

/-- C8: on an event with no detail container, attaching two details (for
example contact then remarks) produces exactly one detail container
holding both children in order, appended at the end of the event; and in
general any later call on an event whose first detail container is
non-empty appends under that container without creating a second one. -/
theorem c8_single_detail_container (ev : Elem) (t1 t2 : String)
    (a1 a2 : List (String × String)) (x1 x2 : Option String)
    (hnone : ev.find "detail" = none) :
    ((add_detail (add_detail ev t1 a1 x1) t2 a2 x2).children.filter
        (fun c => c.tag == "detail")).length = 1 ∧
    (add_detail (add_detail ev t1 a1 x1) t2 a2 x2).find "detail"
      = some (Elem.mk "detail" [] none [Elem.mk t1 a1 x1 [], Elem.mk t2 a2 x2 []]) ∧
    (add_detail (add_detail ev t1 a1 x1) t2 a2 x2).children
      = ev.children ++ [Elem.mk "detail" [] none [Elem.mk t1 a1 x1 [], Elem.mk t2 a2 x2 []]] ∧
    (∀ (e d : Elem) (t : String) (a : List (String × String)) (x : Option String),
      e.find "detail" = some d → d.children ≠ [] →
      ((add_detail e t a x).children.filter (fun c => c.tag == "detail")).length
          = (e.children.filter (fun c => c.tag == "detail")).length ∧
      (add_detail e t a x).find "detail"
          = some (d.withChildren (d.children ++ [Elem.mk t a x []]))) := by
  have hnone' : ev.children.find? (fun c => c.tag == "detail") = none := hnone
  have hforall : ∀ c ∈ ev.children, (c.tag == "detail") = false := by
    intro c hc
    have h := List.find?_eq_none.mp hnone' c hc
    simpa using h
  have h1 := add_detail_create ev t1 a1 x1 hnone
  have h2 : add_detail (add_detail ev t1 a1 x1) t2 a2 x2
      = ev.withChildren (ev.children
          ++ [Elem.mk "detail" [] none [Elem.mk t1 a1 x1 [], Elem.mk t2 a2 x2 []]]) := by
    rw [h1]
    rw [add_detail_reuse
        (ev.withChildren (ev.children ++ [Elem.mk "detail" [] none [Elem.mk t1 a1 x1 []]]))
        ev.children [] (Elem.mk "detail" [] none [Elem.mk t1 a1 x1 []]) t2 a2 x2
        (Elem.children_withChildren _ _) hforall rfl (by simp [Elem.children])]
    rw [Elem.withChildren_withChildren]
    rfl
  refine ⟨?_, ?_, ?_, ?_⟩
  · rw [h2, Elem.children_withChildren, List.filter_append]
    have hnil : ev.children.filter (fun c => c.tag == "detail") = [] :=
      List.filter_eq_nil_iff.mpr (by intro c hc; simp [hforall c hc])
    simp [hnil, List.filter_cons, Elem.tag]
    intro c hc
    simpa [Elem.tag] using hforall c hc
  · rw [h2]
    simp only [Elem.find, Elem.children_withChildren, List.find?_append, hnone',
      Option.none_or, List.find?_cons]
    rfl
  · rw [h2, Elem.children_withChildren]
  · intro e d t a x hfd hdn
    have hdecomp := List.find?_eq_some.mp hfd
    obtain ⟨hp, as, bs, hch, has⟩ := hdecomp
    have hasf : ∀ c ∈ as, (c.tag == "detail") = false := by
      intro c hc
      simpa using has c hc
    have hasnone : as.find? (fun c => c.tag == "detail") = none :=
      List.find?_eq_none.mpr (by intro c hc; simp [hasf c hc])
    have hr := add_detail_reuse e as bs d t a x hch hasf hp hdn
    constructor
    · rw [hr, Elem.children_withChildren, hch, List.filter_append, List.filter_append]
      have htag2 : ((d.withChildren (d.children ++ [Elem.mk t a x []])).tag == "detail")
          = true := by
        rw [Elem.tag_withChildren]
        exact hp
      simp [List.filter_cons, hp, htag2]
    · rw [hr]
      have htag2 : ((d.withChildren (d.children ++ [Elem.mk t a x []])).tag == "detail")
          = true := by
        rw [Elem.tag_withChildren]
        exact hp
      simp only [Elem.find, Elem.children_withChildren, List.find?_append, hasnone,
        Option.none_or, List.find?_cons, htag2]

/-- Witness for C8: a freshly generated event with a point child and no
detail gains exactly one detail container across a contact call followed
by a remarks call. -/
theorem c8_single_detail_container_witness :
    ((add_detail (add_detail (generate_point (generate_event 0 1 "u")) "contact"
        [("callsign", "A")] none) "remarks" [] (some "r")).children.filter
        (fun c => c.tag == "detail")).length = 1 :=
  (c8_single_detail_container (generate_point (generate_event 0 1 "u")) "contact" "remarks"
    [("callsign", "A")] [] none (some "r") rfl).1

theorem filter_not_contains_self (l : List String) :
    l.filter (fun u => !l.contains u) = [] := by
  apply List.filter_eq_nil_iff.mpr
  intro a ha
  have hc : l.contains a = true := (contains_true_iff l a).mpr ha
  simp [hc, ha]

/-- C9: running the synchronizer twice in immediate succession against an
unchanged upstream feed (same fetched features, hence the same derived
EntityUIDs, which do not depend on the run timestamps) publishes no
deletion events on the second run and reports a deleted count of zero. -/
theorem c9_idempotence (cfg : FeedConfig) (prev : List String)
    (features : List RawFeature) (now1 now2 : Nat) :
    (fetch_and_publish_feed cfg
        (fetch_and_publish_feed cfg prev features now1 .noFail).prevAfter
        features now2 .noFail).result.deleted? = some 0 ∧
    (fetch_and_publish_feed cfg
        (fetch_and_publish_feed cfg prev features now1 .noFail).prevAfter
        features now2 .noFail).deletionsPublished = [] := by
  cases features with
  | nil => exact ⟨rfl, rfl⟩
  | cons f fs =>
    have hne : (f :: fs : List RawFeature) ≠ [] := by simp
    have hprev : (fetch_and_publish_feed cfg prev (f :: fs) now1 .noFail).prevAfter
        = currentUidList cfg (f :: fs) := by
      rw [run_noFail_eq cfg prev (f :: fs) now1 hne]
    rw [hprev, run_noFail_eq cfg (currentUidList cfg (f :: fs)) (f :: fs) now2 hne]
    constructor
    · simp [RunResult.deleted?, filter_not_contains_self]
    · simp [filter_not_contains_self]

/-- C10: a parsed feature whose object identifier resolved as null gets
the EntityUID formed from the feed name and the rendered absent-identifier
marker None; concretely, two distinct identifier-less features in one
batch collapse to a single recorded UID while both are published, so the
published count (2) exceeds the number of distinct UIDs recorded (1). -/
theorem c10_absent_identifier_collapse :
    (∀ (cfg : FeedConfig) (p : ParsedFeature), p.object_id = .vNull →
      uidOf cfg.name p.object_id = "arcgis-" ++ cfg.name ++ "-None") ∧
    (fetch_and_publish_feed cfgF []
        [{ attributes := [("Name", .vStr "A")], geometry := [("x", .vInt 1), ("y", .vInt 2)] },
         { attributes := [("Name", .vStr "B")], geometry := [("x", .vInt 3), ("y", .vInt 4)] }]
        0 .noFail).result = .success "f" 2 0 2 ∧
    (fetch_and_publish_feed cfgF []
        [{ attributes := [("Name", .vStr "A")], geometry := [("x", .vInt 1), ("y", .vInt 2)] },
         { attributes := [("Name", .vStr "B")], geometry := [("x", .vInt 3), ("y", .vInt 4)] }]
        0 .noFail).prevAfter = ["arcgis-f-None"] ∧
    ({ attributes := [("Name", .vStr "A")], geometry := [("x", .vInt 1), ("y", .vInt 2)] }
        : RawFeature)
      ≠ { attributes := [("Name", .vStr "B")], geometry := [("x", .vInt 3), ("y", .vInt 4)] } ∧
    (fetch_and_publish_feed cfgF []
        [{ attributes := [("Name", .vStr "A")], geometry := [("x", .vInt 1), ("y", .vInt 2)] },
         { attributes := [("Name", .vStr "B")], geometry := [("x", .vInt 3), ("y", .vInt 4)] }]
        0 .noFail).prevAfter.length < 2 := by
  refine ⟨?_, by decide, by decide, by decide, by decide⟩
  intro cfg p h
  rw [uidOf, h]
  rw [String.append_assoc]
  rfl

/-- Witness for C10: the EntityUID of a null identifier under the sample
feed is the feed name with the None marker. -/
theorem c10_absent_identifier_collapse_witness :
    uidOf cfgF.name AVal.vNull = "arcgis-" ++ cfgF.name ++ "-None" :=
  c10_absent_identifier_collapse.1 cfgF
    { lat := .vInt 2, lon := .vInt 1, object_id := .vNull, callsign := "A", remarks := "" } rfl
